import Mathlib

/-!
Verification development for the SFCrime backend (Python sources under
src/backend/app). Each definition is a shallow embedding of one function or
code path of the repository; theorems at the end of the file settle the
frozen claims about the natural-language specification.

Modelling conventions:
- Python datetimes are modelled as Nat microseconds since an arbitrary epoch
  (datetime supports microsecond precision; only ordering and second
  truncation matter to the embedded code paths).
- Python floats appearing in coordinate comparisons are modelled as Int in
  units of 10^-4 degrees (the finest granularity among the decimal literals
  the source compares against): 37.6 is written 376000, -122.4194 is written
  -1224194, and so on. Every such literal is exactly representable, and the
  map is strictly monotone, so every comparison outcome agrees with the
  source's float comparison.
- Fallible calls (HTTP attempts, awaited service calls) are modelled by
  Except values supplied as parameters, mirroring the source control flow
  around them (try/except scope).
-/

namespace SFCrime

/-- Microseconds per second: Python datetime carries microsecond precision. -/
def usPerSecond : Nat := 1000000

/-- Microseconds per day, for timedelta(days=n) arithmetic. -/
def usPerDay : Nat := 86400000000

/-- Models `since.strftime("%Y-%m-%dT%H:%M:%S")` in
`SODAClient.fetch_dispatch_calls` / `fetch_incident_reports`
(src/backend/app/services/soda_client.py lines 112-116, 149-152): the
format string carries no `%f`, so the rendered timestamp is the datetime
truncated to whole seconds. -/
def sodaStrftimeSeconds (t : Nat) : Nat :=
  t / usPerSecond * usPerSecond

/-- The threshold encoded into the `$where` parameter by
`fetch_dispatch_calls`: `params["$where"] = f"call_last_updated_at > '{since_str}'"`
is emitted only when `since` is not None (a datetime is always truthy). -/
def dispatchFetchWhereThreshold (since : Option Nat) : Option Nat :=
  since.map sodaStrftimeSeconds

/-- The threshold encoded into the `$where` parameter by
`fetch_incident_reports`: `params["$where"] = f"report_datetime > '{since_str}'"`. -/
def incidentFetchWhereThreshold (since : Option Nat) : Option Nat :=
  since.map sodaStrftimeSeconds

/-- Server-side semantics of the SODA `$where` clause `field > 'threshold'`:
with no clause every record matches; with a clause a record matches iff its
field is strictly greater than the threshold. -/
def sodaWhereMatches (threshold : Option Nat) (t : Nat) : Bool :=
  match threshold with
  | none => true
  | some s => decide (s < t)

/-- Whether a record whose `call_last_updated_at` equals `t` is included in
the response to the fetch issued by `fetch_dispatch_calls since`. -/
def dispatchFetchIncludes (since : Option Nat) (t : Nat) : Bool :=
  sodaWhereMatches (dispatchFetchWhereThreshold since) t

/-- Whether a record whose `report_datetime` equals `t` is included in the
response to the fetch issued by `fetch_incident_reports since`. -/
def incidentFetchIncludes (since : Option Nat) (t : Nat) : Bool :=
  sodaWhereMatches (incidentFetchWhereThreshold since) t

/-! ### Retry loop of `SODAClient._request_with_retry`
(src/backend/app/services/soda_client.py lines 51-85). Each HTTP attempt is
modelled by its outcome; the loop body distinguishes a successful response,
an `httpx.HTTPStatusError` carrying a status code, and an
`httpx.RequestError`. -/

/-- Outcome of one HTTP attempt inside `_request_with_retry`. -/
inductive AttemptOutcome where
  | ok (records : Nat)
  | httpStatus (code : Nat)
  | requestError
deriving DecidableEq, Repr

/-- Trace of a `_request_with_retry` call: how many attempts were made, the
sleep durations (seconds) between attempts, and the final result
(`Except.error` models a raised `SODAClientError`). -/
structure RetryTrace where
  attempts : Nat
  waits : List Nat
  result : Except String Nat
deriving Repr

/-- One step of the `for attempt in range(self.max_retries)` loop:
200-response returns the body; status 429 sleeps `2**attempt * 10` and
retries; status >= 500 sleeps `2**attempt` and retries; any other status
raises `SODAClientError` at once; a request error sleeps `2**attempt` and
retries; falling out of the loop raises `SODAClientError`. -/
def requestWithRetryAux (outcomes : Nat → AttemptOutcome) :
    Nat → Nat → List Nat → RetryTrace
  | 0, attempt, waits =>
      ⟨attempt, waits, Except.error "Failed after retries"⟩
  | remaining + 1, attempt, waits =>
      match outcomes attempt with
      | AttemptOutcome.ok n => ⟨attempt + 1, waits, Except.ok n⟩
      | AttemptOutcome.httpStatus code =>
          if code = 429 then
            requestWithRetryAux outcomes remaining (attempt + 1)
              (waits ++ [2 ^ attempt * 10])
          else if 500 ≤ code then
            requestWithRetryAux outcomes remaining (attempt + 1)
              (waits ++ [2 ^ attempt])
          else
            ⟨attempt + 1, waits, Except.error "HTTP error"⟩
      | AttemptOutcome.requestError =>
          requestWithRetryAux outcomes remaining (attempt + 1)
            (waits ++ [2 ^ attempt])

/-- `_request_with_retry` with the constructor default `max_retries = 3`. -/
def requestWithRetry (outcomes : Nat → AttemptOutcome) (maxRetries : Nat := 3) :
    RetryTrace :=
  requestWithRetryAux outcomes maxRetries 0 []

/-- Sleep before retrying a 429 response at a given attempt index
(`wait_time = 2**attempt * 10`). -/
def rateLimitWait (attempt : Nat) : Nat := 2 ^ attempt * 10

/-- Sleep before retrying a server error at a given attempt index
(`wait_time = 2**attempt`). -/
def serverErrorWait (attempt : Nat) : Nat := 2 ^ attempt

/-! ### Watermark tracking in the sync runs
(src/backend/app/services/ingestion.py). Every sync function initializes
`latest_updated = checkpoint` and, per usable record, runs
`if last_updated and (not latest_updated or last_updated > latest_updated):
latest_updated = last_updated`; the checkpoint is rewritten to
`latest_updated` only under `if latest_updated:`. -/

/-- The per-record `latest_updated` update: keep the tracked value unless
the record carries a strictly larger (or first) last-updated value. -/
def latestStep (latest : Option Nat) (u : Option Nat) : Option Nat :=
  match u with
  | none => latest
  | some t =>
      match latest with
      | none => some t
      | some l => if t > l then some t else latest

/-- Fold of the per-record `latest_updated` tracking over the parsed
last-updated values of the usable records of one run. -/
def trackLatest (checkpoint : Option Nat) (updates : List (Option Nat)) :
    Option Nat :=
  updates.foldl latestStep checkpoint

/-- The stored watermark after one successful sync run: `update_checkpoint`
is called with `latest_updated` only when it is truthy, otherwise the stored
value is left as it was. -/
def syncNewCheckpoint (cp : Option Nat) (updates : List (Option Nat)) :
    Option Nat :=
  match trackLatest cp updates with
  | none => cp
  | some t => some t

/-- Order on stored watermarks: an absent watermark precedes everything. -/
def checkpointLe : Option Nat → Option Nat → Bool
  | none, _ => true
  | some _, none => false
  | some a, some b => decide (a ≤ b)

/-! ### Fetch-window seeding per source
(src/backend/app/services/ingestion.py). Each sync function computes the
`since` argument handed to the SODA client from the stored checkpoint. -/

/-- `sync_dispatch_calls` (lines 147-152): the checkpoint is passed through
unchanged; there is no seeding of a default window when it is absent. -/
def dispatchSyncSince (checkpoint : Option Nat) : Option Nat :=
  checkpoint

/-- `sync_incident_reports` (lines 331-341): when no checkpoint exists the
window is seeded to `now - timedelta(days=initial_days_back)`; the parameter
defaults to 3. -/
def incidentSyncSince (checkpoint : Option Nat) (now : Nat)
    (initialDaysBack : Nat) : Option Nat :=
  match checkpoint with
  | some cp => some cp
  | none => some (now - initialDaysBack * usPerDay)

/-- `sync_fire_calls` (lines 457-469): same seeding shape, default 1 day. -/
def fireSyncSince (checkpoint : Option Nat) (now : Nat)
    (initialDaysBack : Nat) : Option Nat :=
  match checkpoint with
  | some cp => some cp
  | none => some (now - initialDaysBack * usPerDay)

/-- `sync_service_requests` (lines 597-609): same seeding shape, default 1 day. -/
def serviceRequestSyncSince (checkpoint : Option Nat) (now : Nat)
    (initialDaysBack : Nat) : Option Nat :=
  match checkpoint with
  | some cp => some cp
  | none => some (now - initialDaysBack * usPerDay)

/-- `sync_traffic_crashes` (lines 746-758): same seeding shape, default 7 days. -/
def trafficCrashSyncSince (checkpoint : Option Nat) (now : Nat)
    (initialDaysBack : Nat) : Option Nat :=
  match checkpoint with
  | some cp => some cp
  | none => some (now - initialDaysBack * usPerDay)

/-! ### Timestamp parsing, `IngestionService._parse_datetime`
(src/backend/app/services/ingestion.py lines 54-71). The Python code tries
the formats `%Y-%m-%dT%H:%M:%S.%f`, `%Y-%m-%dT%H:%M:%S`,
`%Y-%m-%d %H:%M:%S` in order and returns None on any other input. -/

/-- A parsed Python datetime value (UTC; tzinfo carries no information the
embedded code branches on). -/
structure PyDateTime where
  year : Nat
  month : Nat
  day : Nat
  hour : Nat
  minute : Nat
  second : Nat
  micro : Nat
deriving DecidableEq, Repr

/-- Days in a month under the Gregorian leap rule, as validated by the
datetime constructor that strptime builds. -/
def daysInMonth (year month : Nat) : Nat :=
  if month = 2 then
    if year % 4 = 0 && (year % 100 ≠ 0 || year % 400 = 0) then 29 else 28
  else if month = 4 || month = 6 || month = 9 || month = 11 then 30
  else 31

/-- Calendar validity as enforced by `datetime.strptime`. -/
def validDate (y m d : Nat) : Bool :=
  1 ≤ y && 1 ≤ m && m ≤ 12 && 1 ≤ d && d ≤ daysInMonth y m

/-- Time-of-day validity as enforced by `datetime.strptime`. -/
def validTime (h mi s : Nat) : Bool :=
  h ≤ 23 && mi ≤ 59 && s ≤ 59

/-- Split a character list at every occurrence of a separator, keeping empty
segments, as Python's separator-delimited strptime field matching does. -/
def splitOnCharAux (c : Char) : List Char → List Char → List (List Char)
  | [], acc => [acc.reverse]
  | x :: xs, acc =>
      if x = c then acc.reverse :: splitOnCharAux c xs []
      else splitOnCharAux c xs (x :: acc)

/-- Split on a single separator character. -/
def splitOnChar (c : Char) (s : List Char) : List (List Char) :=
  splitOnCharAux c s []

/-- Decimal value of a non-empty all-digit character run; none otherwise. -/
def digitsToNat? (cs : List Char) : Option Nat :=
  if cs.isEmpty then none
  else if cs.all (fun ch => ch.isDigit) then
    some (cs.foldl (fun n ch => n * 10 + (ch.toNat - 48)) 0)
  else none

/-- Parse a `%Y-%m-%d` component triple. -/
def parseDatePart (s : List Char) : Option (Nat × Nat × Nat) :=
  match splitOnChar (Char.ofNat 45) s with
  | [ys, ms, ds] =>
      match digitsToNat? ys, digitsToNat? ms, digitsToNat? ds with
      | some y, some m, some d =>
          if validDate y m d then some (y, m, d) else none
      | _, _, _ => none
  | _ => none

/-- Parse a `%H:%M:%S` component triple. -/
def parseTimePart (s : List Char) : Option (Nat × Nat × Nat) :=
  match splitOnChar (Char.ofNat 58) s with
  | [hs, ms, ss] =>
      match digitsToNat? hs, digitsToNat? ms, digitsToNat? ss with
      | some h, some mi, some sec =>
          if validTime h mi sec then some (h, mi, sec) else none
      | _, _, _ => none
  | _ => none

/-- Parse a `%f` fractional-second component: one to six digits, padded to
microseconds on the right as Python does. -/
def parseMicroPart (s : List Char) : Option Nat :=
  if 1 ≤ s.length && s.length ≤ 6 then
    (digitsToNat? s).map (fun n => n * 10 ^ (6 - s.length))
  else none

/-- Models `datetime.strptime(value, "%Y-%m-%dT%H:%M:%S")`. -/
def strptimeIsoT (value : String) : Option PyDateTime :=
  match splitOnChar (Char.ofNat 84) value.toList with
  | [ds, ts] =>
      match parseDatePart ds, parseTimePart ts with
      | some (y, m, d), some (h, mi, s) => some ⟨y, m, d, h, mi, s, 0⟩
      | _, _ => none
  | _ => none

/-- Models `datetime.strptime(value, "%Y-%m-%dT%H:%M:%S.%f")`. -/
def strptimeIsoTFrac (value : String) : Option PyDateTime :=
  match splitOnChar (Char.ofNat 84) value.toList with
  | [ds, rest] =>
      match splitOnChar (Char.ofNat 46) rest with
      | [ts, fs] =>
          match parseDatePart ds, parseTimePart ts, parseMicroPart fs with
          | some (y, m, d), some (h, mi, s), some f =>
              some ⟨y, m, d, h, mi, s, f⟩
          | _, _, _ => none
      | _ => none
  | _ => none

/-- Models `datetime.strptime(value, "%Y-%m-%d %H:%M:%S")`. -/
def strptimeSpace (value : String) : Option PyDateTime :=
  match splitOnChar (Char.ofNat 32) value.toList with
  | [ds, ts] =>
      match parseDatePart ds, parseTimePart ts with
      | some (y, m, d), some (h, mi, s) => some ⟨y, m, d, h, mi, s, 0⟩
      | _, _ => none
  | _ => none

/-- Models `IngestionService._parse_datetime`: rejects absent or empty input
(`if not value`), then tries the three literal formats in order. -/
def parsePyDatetime (value : Option String) : Option PyDateTime :=
  match value with
  | none => none
  | some v =>
      if v.isEmpty then none
      else
        match strptimeIsoTFrac v with
        | some dt => some dt
        | none =>
            match strptimeIsoT v with
            | some dt => some dt
            | none => strptimeSpace v

/-- Models `datetime.fromisoformat` as used by the Diachron adapters on the
dataset's timestamp shapes (after the `Z` to `+00:00` rewrite; explicit
timezone offsets do not occur in the embedded inputs). -/
def fromIsoFormat (value : String) : Option PyDateTime :=
  match strptimeIsoTFrac value with
  | some dt => some dt
  | none =>
      match strptimeIsoT value with
      | some dt => some dt
      | none => strptimeSpace value

/-! ### Raw records and coordinate extraction
(`IngestionService._parse_point`, src/backend/app/services/ingestion.py
lines 73-108). A raw SODA record is a JSON dict; the fields read by the
embedded code paths are modelled explicitly. A GeoJSON point object's
`coordinates` array holds `[longitude, latitude]`. String-encoded floats in
the flat lat/lng fields are modelled by their parsed rational value; a
present-but-unparseable value is identified with an absent one, which only
merges the fallthrough-to-`point` path. -/

/-- A GeoJSON-style point object; `coordinates := none` models a point dict
without a `"coordinates"` key. -/
structure GeoPoint where
  coordinates : Option (Int × Int)
deriving DecidableEq

/-- The fields of a raw SODA record read by the embedded code paths. -/
structure RawRecord where
  intersection_point : Option GeoPoint := none
  case_location : Option GeoPoint := none
  point_geom : Option GeoPoint := none
  latitude : Option Int := none
  lat : Option Int := none
  tb_latitude : Option Int := none
  longitude : Option Int := none
  long : Option Int := none
  tb_longitude : Option Int := none
  point : Option GeoPoint := none
  received_datetime : Option String := none
  cad_number : Option String := none
  call_type_original : Option String := none
  call_type_original_desc : Option String := none
  priority_original : Option String := none
  dispatch_datetime : Option String := none
  onscene_datetime : Option String := none
  close_datetime : Option String := none
  intersection_name : Option String := none
  police_district : Option String := none
  disposition : Option String := none
  call_last_updated_at : Option String := none
  incident_number : Option String := none
  call_type : Option String := none
deriving DecidableEq

/-- Python truthiness of an optional string: None and the empty string are
falsy. -/
def truthyOptStr : Option String → Bool
  | none => false
  | some s => !s.isEmpty

/-- The `if point and "coordinates" in point` guard followed by reading
`point["coordinates"]`. -/
def geoCoords (p : Option GeoPoint) : Option (Int × Int) :=
  p.bind (fun q => q.coordinates)

/-- The flat lat/lng extraction of `_parse_point`: the `or`-chains over
`latitude`/`lat`/`tb_latitude` and `longitude`/`long`/`tb_longitude`, the
`if lat and lng` truthiness guard, and the float conversion producing
`POINT(lng lat)`. -/
def latLngPair (r : RawRecord) : Option (Int × Int) :=
  match r.latitude.orElse (fun _ => r.lat.orElse (fun _ => r.tb_latitude)),
        r.longitude.orElse (fun _ => r.long.orElse (fun _ => r.tb_longitude)) with
  | some la, some ln => some (ln, la)
  | _, _ => none

/-- Models `IngestionService._parse_point`: candidate sources are tried in
source order (intersection_point, case_location, point_geom, flat lat/lng,
point); the result is the WKT point content `(lng, lat)`. There is no
geographic-bounds check anywhere in this function. -/
def parsePoint (r : RawRecord) : Option (Int × Int) :=
  (geoCoords r.intersection_point).orElse (fun _ =>
  (geoCoords r.case_location).orElse (fun _ =>
  (geoCoords r.point_geom).orElse (fun _ =>
  (latLngPair r).orElse (fun _ =>
  geoCoords r.point))))

/-! ### Per-record transform of `sync_dispatch_calls`
(src/backend/app/services/ingestion.py lines 163-201): a record is skipped
(`continue`) when `received_datetime` does not parse or `cad_number` is
falsy; every surviving record is upserted and counted, its `values` dict
built from the fields below. -/

/-- The `values` dict built for one dispatch-call upsert. -/
structure DispatchValues where
  cad_number : String
  call_type_code : Option String
  call_type_description : Option String
  priority : Option String
  received_at : PyDateTime
  dispatch_at : Option PyDateTime
  on_scene_at : Option PyDateTime
  closed_at : Option PyDateTime
  location : Option (Int × Int)
  location_text : Option String
  district : Option String
  disposition : Option String
  last_updated_at : Option PyDateTime
deriving DecidableEq

/-- The per-record body of the `sync_dispatch_calls` loop: returns the
upsert values for a usable record and none for a skipped one. No check of
any kind is made on the extracted coordinates. -/
def transformDispatchRecord (r : RawRecord) : Option DispatchValues :=
  match parsePyDatetime r.received_datetime with
  | none => none
  | some received_at =>
      match r.cad_number with
      | none => none
      | some cad =>
          if cad.isEmpty then none
          else
            some
              { cad_number := cad
                call_type_code := r.call_type_original
                call_type_description := r.call_type_original_desc
                priority := r.priority_original
                received_at := received_at
                dispatch_at := parsePyDatetime r.dispatch_datetime
                on_scene_at := parsePyDatetime r.onscene_datetime
                closed_at := parsePyDatetime r.close_datetime
                location := parsePoint r
                location_text := r.intersection_name
                district := r.police_district
                disposition := r.disposition
                last_updated_at := parsePyDatetime r.call_last_updated_at }

/-! ### Diachron adapter
(src/backend/app/services/diachron_adapter.py). `DiachronFact` models the
dataclass of the same name; the write-through presentation metadata that no
embedded branch reads (`time_granularity`, `time_certainty`, `date_display`,
`sources`, `source_dataset`, `original_text`) is elided. The `id` field
models the `uuid4` default-factory value generated when the dataclass
instance is constructed. -/

/-- A fact bound for Diachron's `location_facts` table. -/
structure DiachronFact where
  kind_code : String
  title : String
  description : String
  valid_from : PyDateTime
  valid_to : Option PyDateTime := none
  external_id : Option String := none
  id : Nat
  categories : List String := []
  tags : List String := []
  significance : String := "local"
  coordinates_lat : Int
  coordinates_lng : Int
  neighborhood_slug : Option String := none
  address : Option String := none
deriving DecidableEq

/-- Models `_district_to_neighborhood` (diachron_adapter.py lines 943-966):
falsy district maps to None, otherwise a fixed uppercase lookup table. -/
def districtToNeighborhood (district : Option String) : Option String :=
  match district with
  | none => none
  | some d =>
      if d.isEmpty then none
      else
        let u := d.toUpper
        if u = "BAYVIEW" then some "bayview-hunters-point"
        else if u = "CENTRAL" then some "chinatown"
        else if u = "INGLESIDE" then some "ingleside"
        else if u = "MISSION" then some "mission"
        else if u = "NORTHERN" then some "pacific-heights"
        else if u = "PARK" then some "haight-ashbury"
        else if u = "RICHMOND" then some "richmond"
        else if u = "SOUTHERN" then some "south-of-market"
        else if u = "TARAVAL" then some "sunset-district"
        else if u = "TENDERLOIN" then some "tenderloin"
        else none

/-- The fixed SF bounding box tested by `dispatch_call_dict_to_diachron`
(diachron_adapter.py line 208): `37.6 <= lat <= 37.85` and
`-122.55 <= lng <= -122.35`, in units of 10^-4 degrees. -/
def sfBoundsOk (latv lngv : Int) : Bool :=
  decide ((376000 : Int) ≤ latv) && decide (latv ≤ (378500 : Int)) &&
  decide ((-1225500 : Int) ≤ lngv) && decide (lngv ≤ (-1223500 : Int))

/-- Python `a or b` on strings: the first operand when non-empty. -/
def pyOrStr (a b : String) : String :=
  if a.isEmpty then b else a

/-- The `desc_parts` construction shared by the dispatch adapters. -/
def dispatchDescription (r : RawRecord) : String :=
  let code := (r.call_type_original).getD ""
  let parts :=
    (if code.isEmpty then [] else ["Call Type: " ++ code]) ++
    (match r.priority_original with
     | some p => if p.isEmpty then [] else ["Priority: " ++ p]
     | none => []) ++
    (match r.disposition with
     | some d => if d.isEmpty then [] else ["Disposition: " ++ d]
     | none => []) ++
    (match r.intersection_name with
     | some l => if l.isEmpty then [] else ["Location: " ++ l]
     | none => [])
  if parts.isEmpty then "Police dispatch call"
  else String.intercalate " | " parts

/-- The category list built by `dispatch_call_dict_to_diachron`. -/
def dispatchCategories (r : RawRecord) : List String :=
  ["law_enforcement", "dispatch"] ++
  (match r.priority_original with
   | some p =>
       if p = "A" || p = "B" then ["high_priority"]
       else if p = "C" || p = "D" then ["low_priority"]
       else []
   | none => [])

/-- Models `dispatch_call_dict_to_diachron` (diachron_adapter.py lines
187-284): extract coordinates from `intersection_point`, reject when the
point or its coordinates are missing, reject coordinates outside the SF
bounding box, reject a missing or unparseable `received_datetime`, then
build the fact. `freshId` supplies the `uuid4` default-factory value. -/
def dispatchDictToDiachron (freshId : Nat) (r : RawRecord) :
    Option DiachronFact :=
  match geoCoords r.intersection_point with
  | none => none
  | some (lngv, latv) =>
      if !sfBoundsOk latv lngv then none
      else
        match r.received_datetime with
        | none => none
        | some receivedStr =>
            if receivedStr.isEmpty then none
            else
              match fromIsoFormat receivedStr with
              | none => none
              | some received_at =>
                  let closed_at :=
                    match r.close_datetime with
                    | some c => if c.isEmpty then none else fromIsoFormat c
                    | none => none
                  let code := (r.call_type_original).getD ""
                  let descField := (r.call_type_original_desc).getD ""
                  some
                    { kind_code := "dispatch_call"
                      title := pyOrStr descField (pyOrStr code "Police Dispatch")
                      description := dispatchDescription r
                      valid_from := received_at
                      valid_to := closed_at
                      external_id := r.cad_number
                      id := freshId
                      categories := dispatchCategories r
                      tags := if code.isEmpty then [] else [code]
                      significance := "local"
                      coordinates_lat := latv
                      coordinates_lng := lngv
                      neighborhood_slug := districtToNeighborhood r.police_district
                      address := r.intersection_name }

/-! ### Diachron writer
(src/backend/app/services/diachron_writer.py). The secondary store is
modelled as explicit lists of location and fact rows; the storage
collaborator's spatial within-distance predicate (`ST_DWithin` over
geography, 10 m) and the `neighborhoods` slug lookup are supplied as
environment parameters, and the `fact_kinds` cache is an environment map
from kind code to kind id. Fresh uuid4 values are supplied by an id
counter. -/

/-- A row of Diachron's `locations` table. -/
structure LocationRow where
  id : Nat
  lat : Int
  lng : Int
  address : Option String
  neighborhood_id : Option Nat
deriving DecidableEq

/-- A row of Diachron's `location_facts` table (columns the embedded code
reads or writes; `valid_from`/`valid_to` stand for the `valid_during`
daterange). -/
structure FactRow where
  id : Nat
  location_id : Nat
  kind_id : Nat
  title : String
  description : String
  valid_from : PyDateTime
  valid_to : Option PyDateTime
  categories : List String
  tags : List String
  external_id : Option String
deriving DecidableEq

/-- The secondary-store state owned by the writer. -/
structure DiaState where
  locations : List LocationRow
  facts : List FactRow
deriving DecidableEq

/-- External collaborators of the writer: the `fact_kinds` cache, the
storage engine's 10 m within-distance predicate, and the `neighborhoods`
slug lookup. -/
structure WriterEnv where
  kindId : String → Option Nat
  near : Int → Int → Int → Int → Bool
  nbhdIdOfSlug : String → Option Nat

/-- Models `DiachronWriter._find_or_create_location` (diachron_writer.py
lines 104-159): reuse the first location within the proximity threshold,
else resolve the neighborhood slug and insert a new row under a fresh id. -/
def findOrCreateLocation (env : WriterEnv) (freshLoc : Nat) (st : DiaState)
    (latv lngv : Int) (address : Option String) (slug : Option String) :
    DiaState × Nat :=
  match st.locations.find? (fun l => env.near l.lat l.lng latv lngv) with
  | some l => (st, l.id)
  | none =>
      let nbhd := slug.bind env.nbhdIdOfSlug
      ({ st with
          locations :=
            st.locations ++ [⟨freshLoc, latv, lngv, address, nbhd⟩] },
        freshLoc)

/-- The duplicate probe `SELECT id FROM location_facts WHERE external_id =
$1 AND kind_id = $2`, reached only under the `if fact.external_id:`
truthiness guard. -/
def findExistingFact (st : DiaState) (externalId : Option String)
    (kindId : Nat) : Option FactRow :=
  st.facts.find? (fun row =>
    row.external_id == externalId && row.kind_id == kindId)

/-- The row written by the INSERT arm shared by `write_fact` and
`write_facts_batch`: its id is `fact.id`, the uuid carried by the fact. -/
def newFactRow (f : DiachronFact) (kindId locId : Nat) : FactRow :=
  ⟨f.id, locId, kindId, f.title, f.description, f.valid_from, f.valid_to,
    f.categories, f.tags, f.external_id⟩

/-- Models the INSERT arm shared by `write_fact` and `write_facts_batch`. -/
def insertFactRow (st : DiaState) (f : DiachronFact) (kindId locId : Nat) :
    DiaState :=
  { st with facts := st.facts ++ [newFactRow f kindId locId] }

/-- Models `DiachronWriter._update_fact` (lines 236-268): mutable fields of
the matched row are overwritten in place; `id`, `location_id`, `kind_id`
and `external_id` are untouched. -/
def updateFactRow (st : DiaState) (factId : Nat) (f : DiachronFact) :
    DiaState :=
  { st with
      facts :=
        st.facts.map (fun row =>
          if row.id = factId then
            { row with
                title := f.title
                description := f.description
                valid_from := f.valid_from
                valid_to := f.valid_to
                categories := f.categories
                tags := f.tags }
          else row) }

/-- Models `DiachronWriter.write_fact` (lines 161-234): unknown kind returns
None without writing; otherwise resolve the location, and when
`fact.external_id` is truthy probe for an existing `(external_id, kind_id)`
row — updating it in place when found — else insert a new row under the
fact's own id. -/
def writeFact (env : WriterEnv) (freshLoc : Nat) (st : DiaState)
    (f : DiachronFact) : DiaState × Option Nat :=
  match env.kindId f.kind_code with
  | none => (st, none)
  | some kindId =>
      let resolved :=
        findOrCreateLocation env freshLoc st f.coordinates_lat
          f.coordinates_lng f.address f.neighborhood_slug
      let st1 := resolved.1
      let locId := resolved.2
      if truthyOptStr f.external_id then
        match findExistingFact st1 f.external_id kindId with
        | some row => (updateFactRow st1 row.id f, some row.id)
        | none => (insertFactRow st1 f kindId locId, some f.id)
      else (insertFactRow st1 f kindId locId, some f.id)

/-- One iteration of the `write_facts_batch` loop (lines 293-360): skip an
unknown kind, resolve the location, update the existing `(external_id,
kind_id)` row when the truthy-external-id probe finds one, else insert;
tally (inserted, updated). -/
def writeBatchStep (env : WriterEnv) (acc : DiaState × Nat × Nat × Nat)
    (f : DiachronFact) : DiaState × Nat × Nat × Nat :=
  let st := acc.1
  let fresh := acc.2.1
  let ins := acc.2.2.1
  let upd := acc.2.2.2
  match env.kindId f.kind_code with
  | none => (st, fresh, ins, upd)
  | some kindId =>
      let resolved :=
        findOrCreateLocation env fresh st f.coordinates_lat
          f.coordinates_lng f.address f.neighborhood_slug
      let st1 := resolved.1
      let locId := resolved.2
      let existing :=
        if truthyOptStr f.external_id then findExistingFact st1 f.external_id kindId
        else none
      match existing with
      | some row => (updateFactRow st1 row.id f, fresh + 1, ins, upd + 1)
      | none => (insertFactRow st1 f kindId locId, fresh + 1, ins + 1, upd)

/-- Models `DiachronWriter.write_facts_batch` (lines 270-365): fold the loop
body over the batch inside one transaction; returns the final state and the
(inserted, updated) counters. -/
def writeFactsBatch (env : WriterEnv) (freshLoc : Nat) (st : DiaState)
    (facts : List DiachronFact) : DiaState × Nat × Nat :=
  let out := facts.foldl (writeBatchStep env) (st, freshLoc, 0, 0)
  (out.1, out.2.2.1, out.2.2.2)

/-! ### Secondary-write call site, `IngestionService._write_to_diachron`
(src/backend/app/services/ingestion.py lines 835-893). The awaited
`get_diachron_writer()` call (line 853) and the record-to-fact conversion
loop (lines 858-876) sit OUTSIDE the try block; only the awaited
`write_facts_batch` call (lines 881-893) is inside it, with the except arm
logging and returning (0, 0). `get_diachron_writer` itself can raise — its
`DiachronWriter.connect` raises ValueError when the Diachron URL is not
configured (diachron_writer.py lines 54-57, 375-390). -/

/-- Control flow of `_write_to_diachron`: the writer acquisition and the
batch write are modelled by the outcomes of the awaited calls (Except.error
models a raised exception). -/
def writeToDiachron (getWriterRes : Except String (Option Unit))
    (facts : List DiachronFact) (batchRes : Except String (Nat × Nat)) :
    Except String (Nat × Nat) :=
  match getWriterRes with
  | Except.error e => Except.error e
  | Except.ok none => Except.ok (0, 0)
  | Except.ok (some _) =>
      if facts.isEmpty then Except.ok (0, 0)
      else
        match batchRes with
        | Except.error _ => Except.ok (0, 0)
        | Except.ok r => Except.ok r

/-- The tail of a sync run around its `await self._write_to_diachron(...)`
call (e.g. sync_dispatch_calls line 215): there is no handler at the call
site, so an exception escaping `_write_to_diachron` aborts the run;
otherwise the run returns its upsert count. -/
def syncRunTail (upserted : Nat) (diaRes : Except String (Nat × Nat)) :
    Except String Nat :=
  match diaRes with
  | Except.error e => Except.error e
  | Except.ok _ => Except.ok upserted

/-! ### Batch deduplication in `sync_fire_calls`
(src/backend/app/services/ingestion.py lines 479-488): of the fetched
records, the first one seen for each truthy `incident_number` is kept and
later ones are dropped; records with a falsy `incident_number` are dropped
here too. The other sync functions (`sync_dispatch_calls`,
`sync_incident_reports`, `sync_service_requests`, `sync_traffic_crashes`)
contain no such pass and upsert every transformed record in order. -/

/-- The `seen_incidents` loop with its accumulated seen-set. -/
def dedupFireAux : List RawRecord → List String → List RawRecord
  | [], _ => []
  | r :: rest, seen =>
      match r.incident_number with
      | some num =>
          if !num.isEmpty && !seen.contains num then
            r :: dedupFireAux rest (num :: seen)
          else dedupFireAux rest seen
      | none => dedupFireAux rest seen

/-- Models the deduplication pass of `sync_fire_calls`. -/
def dedupFireRecords (records : List RawRecord) : List RawRecord :=
  dedupFireAux records []

/-! ### Idempotent natural-key upsert of the primary store. Each sync
function executes `insert(...).on_conflict_do_update(index_elements=[key],
set_=all non-key fields)` per record: insert when the key is absent,
overwrite every non-key field when it is present. The store is modelled as
an ordered list of (key, row) pairs. -/

/-- One `ON CONFLICT DO UPDATE` upsert keyed by the natural key: replace
the (unique) conflicting row in place, or append a new row when the key is
absent. -/
def upsertRow : List (String × α) → String → α → List (String × α)
  | [], key, v => [(key, v)]
  | kv :: rest, key, v =>
      if kv.1 == key then (key, v) :: rest
      else kv :: upsertRow rest key v

/-- A batch of upserts executed in order. -/
def applyUpserts (store : List (String × α)) (rows : List (String × α)) :
    List (String × α) :=
  rows.foldl (fun st r => upsertRow st r.1 r.2) store

/-- Read a row of the primary store by natural key. -/
def lookupRow (store : List (String × α)) (key : String) : Option α :=
  (store.find? (fun kv => kv.1 == key)).map (fun kv => kv.2)

/-- The value carried by the last row of a batch with a given key: with the
per-key overwrite semantics of `upsertRow`, this is the value the store
retains. -/
def lastValueFor (rows : List (String × α)) (key : String) : Option α :=
  (rows.reverse.find? (fun kv => kv.1 == key)).map (fun kv => kv.2)

/-! ### Live broadcast hub
(src/backend/app/websocket/manager.py lines 17-39 and
src/backend/app/websocket/schemas.py lines 160-173). -/

/-- Models `Viewport` (schemas.py): rectangular bounds. -/
structure Viewport where
  min_lat : Int
  max_lat : Int
  min_lng : Int
  max_lng : Int
deriving DecidableEq

/-- Models `Viewport.contains`: inclusive on all four bounds. -/
def Viewport.contains (v : Viewport) (latv lngv : Int) : Bool :=
  decide (v.min_lat ≤ latv) && decide (latv ≤ v.max_lat) &&
  decide (v.min_lng ≤ lngv) && decide (lngv ≤ v.max_lng)

/-- The fields of `DispatchCallOut` read by the broadcast filter. -/
structure BroadcastCall where
  priority : Option String
  coordinates : Option (Int × Int)
deriving DecidableEq

/-- Models `ClientSubscription` (manager.py): an optional viewport and a
priority set (empty set models the default no-filter state). -/
structure ClientSubscription where
  viewport : Option Viewport
  priorities : List String
deriving DecidableEq

/-- Models `ClientSubscription.matches` (manager.py lines 26-39): a
configured non-empty priority set rejects a call whose priority is not a
member (a call without a priority is rejected too, since None is not a
member of a set of strings); a configured viewport rejects a call with
coordinates outside it; a call without coordinates is never rejected by the
viewport filter. -/
def ClientSubscription.matches (s : ClientSubscription) (c : BroadcastCall) :
    Bool :=
  if !s.priorities.isEmpty &&
      !(match c.priority with
        | some p => s.priorities.contains p
        | none => false) then
    false
  else
    match s.viewport, c.coordinates with
    | some v, some co => if !v.contains co.1 co.2 then false else true
    | _, _ => true

/-- Models the per-subscriber delivery decision of
`ConnectionManager.broadcast` (manager.py lines 93-125): a subscriber is
sent a message iff its filtered subset of the updated calls is non-empty. -/
def receivesBroadcast (s : ClientSubscription) (calls : List BroadcastCall) :
    Bool :=
  !(calls.filter (fun c => s.matches c)).isEmpty

/-- Spec-side restatement of the priority filter, written from the spec's
words for the refinement comparison in claim C7: passes iff no priorities
are configured or the record's priority is a member of the configured set. -/
def specPassesPriority (s : ClientSubscription) (c : BroadcastCall) : Bool :=
  s.priorities.isEmpty ||
    (match c.priority with
     | some p => s.priorities.contains p
     | none => false)

/-- Spec-side restatement of the viewport filter, written from the spec's
words for the refinement comparison in claim C7: passes iff no viewport is
configured, the record has no coordinates, or the coordinates fall within
the viewport's inclusive bounds. -/
def specPassesViewport (s : ClientSubscription) (c : BroadcastCall) : Bool :=
  match s.viewport with
  | none => true
  | some v =>
      match c.coordinates with
      | none => true
      | some co => v.contains co.1 co.2

/-! ## Shared helper lemmas -/

theorem checkpointLe_refl (a : Option Nat) : checkpointLe a a = true := by
  cases a <;> simp [checkpointLe]

theorem checkpointLe_trans {a b c : Option Nat} (hab : checkpointLe a b = true)
    (hbc : checkpointLe b c = true) : checkpointLe a c = true := by
  cases a <;> cases b <;> cases c <;> simp [checkpointLe] at * <;> omega

theorem latestStep_le (latest u : Option Nat) :
    checkpointLe latest (latestStep latest u) = true := by
  cases u with
  | none => exact checkpointLe_refl latest
  | some t =>
      cases latest with
      | none => simp [latestStep, checkpointLe]
      | some l =>
          by_cases h : t > l <;> simp [latestStep, h, checkpointLe] <;> omega

theorem trackLatest_mono :
    ∀ (updates : List (Option Nat)) (cp : Option Nat),
      checkpointLe cp (trackLatest cp updates) = true := by
  intro updates
  induction updates with
  | nil => intro cp; exact checkpointLe_refl cp
  | cons u rest ih =>
      intro cp
      have hstep : trackLatest cp (u :: rest) = trackLatest (latestStep cp u) rest := rfl
      rw [hstep]
      exact checkpointLe_trans (latestStep_le cp u) (ih (latestStep cp u))

theorem syncNewCheckpoint_le (cp : Option Nat) (updates : List (Option Nat)) :
    checkpointLe cp (syncNewCheckpoint cp updates) = true := by
  unfold syncNewCheckpoint
  cases h : trackLatest cp updates with
  | none => exact checkpointLe_refl cp
  | some t =>
      have := trackLatest_mono updates cp
      rw [h] at this
      exact this

theorem syncNewCheckpoint_nil (cp : Option Nat) : syncNewCheckpoint cp [] = cp := by
  cases cp <;> rfl

theorem syncRuns_mono :
    ∀ (runs : List (List (Option Nat))) (cp : Option Nat),
      checkpointLe cp (runs.foldl syncNewCheckpoint cp) = true := by
  intro runs
  induction runs with
  | nil => intro cp; exact checkpointLe_refl cp
  | cons updates rest ih =>
      intro cp
      exact checkpointLe_trans (syncNewCheckpoint_le cp updates)
        (ih (syncNewCheckpoint cp updates))

theorem requestWithRetryAux_congr :
    ∀ (remaining attempt : Nat) (waits : List Nat)
      (f g : Nat → AttemptOutcome),
      (∀ i, attempt ≤ i → i < attempt + remaining → f i = g i) →
      requestWithRetryAux f remaining attempt waits =
        requestWithRetryAux g remaining attempt waits := by
  intro remaining
  induction remaining with
  | zero => intro attempt waits f g _; rfl
  | succ rem ih =>
      intro attempt waits f g h
      have hhead : f attempt = g attempt := h attempt (Nat.le_refl _) (by omega)
      have htail : ∀ i, attempt + 1 ≤ i → i < attempt + 1 + rem → f i = g i :=
        fun i h1 h2 => h i (by omega) (by omega)
      show requestWithRetryAux f (rem + 1) attempt waits =
        requestWithRetryAux g (rem + 1) attempt waits
      unfold requestWithRetryAux
      rw [hhead]
      cases g attempt with
      | ok n => rfl
      | httpStatus code =>
          by_cases h429 : code = 429
          · simp only [h429, if_pos rfl]
            exact ih (attempt + 1) _ f g htail
          · by_cases h500 : 500 ≤ code
            · simp only [if_neg h429, if_pos h500]
              exact ih (attempt + 1) _ f g htail
            · simp only [if_neg h429, if_neg h500]
      | requestError => exact ih (attempt + 1) _ f g htail

/-- The all-429 outcome sequence used to evaluate the retry loop. -/
def allRateLimited : Nat → AttemptOutcome :=
  fun _ => AttemptOutcome.httpStatus 429

/-! ## Claims -/

/-- C3: for every source, across any sequence of successful sync runs, the
stored watermark (`syncNewCheckpoint`) is monotonic non-decreasing, and a
run that transforms zero usable records leaves the watermark value
unchanged. -/
theorem claim_C3_watermark_monotonic :
    (∀ (cp : Option Nat) (updates : List (Option Nat)),
        checkpointLe cp (syncNewCheckpoint cp updates) = true)
    ∧ (∀ cp : Option Nat, syncNewCheckpoint cp [] = cp)
    ∧ (∀ (runs : List (List (Option Nat))) (cp : Option Nat),
        checkpointLe cp (runs.foldl syncNewCheckpoint cp) = true) :=
  ⟨syncNewCheckpoint_le, syncNewCheckpoint_nil, syncRuns_mono⟩

/-- C1 counterexample: a boundary record whose last-updated timestamp equals
the stored watermark (here both 2 000 000 µs, a whole-second value) is NOT
included in the incremental fetch of either source, because the emitted
`$where` clause uses strict `>`; the claim asserts it is re-fetched. -/
theorem claim_C1_counterexample :
    dispatchFetchIncludes (some 2000000) 2000000 = false
    ∧ incidentFetchIncludes (some 2000000) 2000000 = false := by
  decide

/-- C1 amended: the incremental fetch includes exactly the records whose
last-updated timestamp is strictly greater than the watermark truncated to
whole seconds; consequently the boundary record equal to the watermark is
re-fetched only when the watermark carries a nonzero sub-second component,
and is skipped when the watermark is whole-second. -/
theorem claim_C1_amended_strict_window :
    ∀ (w t : Nat),
      (dispatchFetchIncludes (some w) t = true ↔ sodaStrftimeSeconds w < t)
      ∧ (incidentFetchIncludes (some w) t = true ↔ sodaStrftimeSeconds w < t)
      ∧ (dispatchFetchIncludes (some w) w = true ↔ ¬ w % usPerSecond = 0)
      ∧ (incidentFetchIncludes (some w) w = true ↔ ¬ w % usPerSecond = 0) := by
  intro w t
  refine ⟨?_, ?_, ?_, ?_⟩ <;>
    simp [dispatchFetchIncludes, incidentFetchIncludes, sodaWhereMatches,
      dispatchFetchWhereThreshold, incidentFetchWhereThreshold,
      sodaStrftimeSeconds, usPerSecond] <;>
    omega

/-- C9: when every HTTP attempt is rate-limited, `_request_with_retry` makes
exactly 3 attempts, sleeping the rate-limit backoff 10·2^a seconds after
each, then raises `SODAClientError` with no further attempt; the rate-limit
backoff is tenfold the server-error backoff at every attempt index. -/
theorem claim_C9_rate_limited_retry_budget :
    ∀ outcomes : Nat → AttemptOutcome,
      (∀ i, i < 3 → outcomes i = AttemptOutcome.httpStatus 429) →
      requestWithRetry outcomes =
        ⟨3, [rateLimitWait 0, rateLimitWait 1, rateLimitWait 2],
          Except.error "Failed after retries"⟩
      ∧ (∀ a : Nat, rateLimitWait a = 10 * serverErrorWait a
          ∧ serverErrorWait a < rateLimitWait a) := by
  intro outcomes h
  constructor
  · have hcongr :
        requestWithRetryAux outcomes 3 0 [] = requestWithRetryAux allRateLimited 3 0 [] :=
      requestWithRetryAux_congr 3 0 [] outcomes allRateLimited
        (fun i _ hi => h i (by omega))
    calc requestWithRetry outcomes = requestWithRetryAux outcomes 3 0 [] := rfl
      _ = requestWithRetryAux allRateLimited 3 0 [] := hcongr
      _ = ⟨3, [rateLimitWait 0, rateLimitWait 1, rateLimitWait 2],
            Except.error "Failed after retries"⟩ := by rfl
  · intro a
    have hpos : 0 < 2 ^ a := Nat.pos_pow_of_pos a (by omega)
    constructor
    · simp [rateLimitWait, serverErrorWait, Nat.mul_comm]
    · simp only [rateLimitWait, serverErrorWait]; omega

/-- C9 witness: the theorem applied to the concrete all-429 outcome
sequence. -/
theorem claim_C9_witness :
    requestWithRetry allRateLimited =
      ⟨3, [rateLimitWait 0, rateLimitWait 1, rateLimitWait 2],
        Except.error "Failed after retries"⟩
    ∧ (∀ a : Nat, rateLimitWait a = 10 * serverErrorWait a
        ∧ serverErrorWait a < rateLimitWait a) :=
  claim_C9_rate_limited_retry_budget allRateLimited (fun _ _ => rfl)

/-- C6 counterexample: the dispatch-calls source finds no checkpoint and
passes `since = None` through to the fetch, so no `$where` clause is
emitted and an arbitrarily old record (timestamp 0) is fetched — full
history rather than a 1-7 day lookback. -/
theorem claim_C6_counterexample :
    dispatchSyncSince none = none
    ∧ dispatchFetchIncludes (dispatchSyncSince none) 0 = true := by
  decide

/-- C6 amended: the incident (3 days), fire (1 day), 311 (1 day) and
traffic-crash (7 days) sources seed their first-run fetch window to a
per-source default lookback within 1-7 days before the current time, but
the dispatch-calls source performs no seeding: with no checkpoint it
fetches with no lower time bound at all. -/
theorem claim_C6_amended_seeding :
    ∀ now : Nat,
      incidentSyncSince none now 3 = some (now - 3 * usPerDay)
      ∧ fireSyncSince none now 1 = some (now - 1 * usPerDay)
      ∧ serviceRequestSyncSince none now 1 = some (now - 1 * usPerDay)
      ∧ trafficCrashSyncSince none now 7 = some (now - 7 * usPerDay)
      ∧ dispatchSyncSince none = none
      ∧ (∀ t : Nat, dispatchFetchIncludes (dispatchSyncSince none) t = true) :=
  fun _ => ⟨rfl, rfl, rfl, rfl, rfl, fun _ => rfl⟩

/-- Subscriber S1 of the spec's broadcast-filtering concrete case:
priorities {"A"}, no viewport. -/
def subS1 : ClientSubscription := ⟨none, ["A"]⟩

/-- Subscriber S2 of the concrete case: priorities {"C"}, no viewport. -/
def subS2 : ClientSubscription := ⟨none, ["C"]⟩

/-- Subscriber S3 of the concrete case: viewport lat 37.0-38.0,
lng -123.0..-122.0 (in 10^-4 degrees), no priority filter. -/
def subS3 : ClientSubscription :=
  ⟨some ⟨370000, 380000, -1230000, -1220000⟩, []⟩

/-- The updated record of the concrete case: priority "A" at
(37.7749, -122.4194). -/
def broadcastRecord : BroadcastCall := ⟨some "A", some (377749, -1224194)⟩

/-- C7: a record is delivered iff it passes both the priority filter (none
configured, or the record's priority is a member) and the viewport filter
(none configured, no coordinates, or inside the inclusive bounds); in the
spec's concrete case the record is delivered to S1 and S3 only. -/
theorem claim_C7_broadcast_filtering :
    (∀ (s : ClientSubscription) (c : BroadcastCall),
        s.matches c = (specPassesPriority s c && specPassesViewport s c))
    ∧ receivesBroadcast subS1 [broadcastRecord] = true
    ∧ receivesBroadcast subS2 [broadcastRecord] = false
    ∧ receivesBroadcast subS3 [broadcastRecord] = true := by
  refine ⟨?_, by decide, by decide, by decide⟩
  intro s c
  unfold ClientSubscription.matches specPassesPriority specPassesViewport
  cases hp : s.priorities.isEmpty <;> cases hc : c.priority <;>
    cases hv : s.viewport <;> cases hco : c.coordinates <;> simp

/-- C2 counterexample: an exception raised while obtaining/connecting the
Diachron writer (the awaited `get_diachron_writer()` on line 853 sits
outside the try block that starts at line 881) propagates out of
`_write_to_diachron` and aborts the primary sync run instead of being
caught and logged. -/
theorem claim_C2_counterexample :
    writeToDiachron (Except.error "diachron connect failed") []
        (Except.ok (0, 0)) =
      Except.error "diachron connect failed"
    ∧ syncRunTail 5
        (writeToDiachron (Except.error "diachron connect failed") []
          (Except.ok (0, 0))) =
      Except.error "diachron connect failed" :=
  ⟨rfl, rfl⟩

/-- C2 amended: only a failure raised by the `write_facts_batch` call
itself is caught and logged at the call site (the run then completes and
returns normally); a failure raised while obtaining/connecting the Diachron
writer — which, like the record conversion, happens outside the try block —
propagates and aborts the primary sync run. -/
theorem claim_C2_amended_batch_failures_only :
    ∀ (e : String) (facts : List DiachronFact)
      (batchRes : Except String (Nat × Nat)) (upserted : Nat),
      writeToDiachron (Except.ok (some ())) facts (Except.error e) =
        Except.ok (0, 0)
      ∧ syncRunTail upserted
          (writeToDiachron (Except.ok (some ())) facts (Except.error e)) =
        Except.ok upserted
      ∧ writeToDiachron (Except.error e) facts batchRes = Except.error e
      ∧ syncRunTail upserted
          (writeToDiachron (Except.error e) facts batchRes) =
        Except.error e := by
  intro e facts batchRes upserted
  refine ⟨?_, ?_, rfl, rfl⟩ <;> cases facts <;> rfl

/-- The spec's bounding-box concrete case: a dispatch record at latitude
40.0, longitude -74.0 (GeoJSON order: coordinates = [lng, lat]) whose other
required fields — natural key and received timestamp — are present. -/
def outOfBoundsRecord : RawRecord :=
  { intersection_point := some ⟨some (-740000, 400000)⟩
    received_datetime := some "2024-01-18T10:00:00"
    cad_number := some "123" }

/-- C4 counterexample: the record with coordinates (40.0, -74.0) — outside
the fixed regional box — and all other required fields present is NOT
rejected by the primary per-record transform of `sync_dispatch_calls`: it
is transformed (location included verbatim), counted and upserted; only the
secondary Diachron adapter rejects it. -/
theorem claim_C4_counterexample :
    sfBoundsOk 400000 (-740000) = false
    ∧ (transformDispatchRecord outOfBoundsRecord).isSome = true
    ∧ (transformDispatchRecord outOfBoundsRecord).map DispatchValues.location =
        some (some (-740000, 400000))
    ∧ ([outOfBoundsRecord].filterMap transformDispatchRecord).length = 1
    ∧ dispatchDictToDiachron 0 outOfBoundsRecord = none := by
  decide

/-- C4 amended: only the secondary (Diachron) adapter rejects a record
whose extracted coordinates lie outside the fixed regional box, so such a
record never reaches the secondary store; the primary transformer performs
no bounds check — a record is kept iff its received timestamp parses and
its natural key is truthy, independent of its coordinates — so the record
still reaches the primary store and the upsert count. -/
theorem claim_C4_amended_secondary_bounds_only :
    (∀ r : RawRecord,
        (transformDispatchRecord r).isSome =
          ((parsePyDatetime r.received_datetime).isSome &&
            truthyOptStr r.cad_number))
    ∧ (∀ (fid : Nat) (r : RawRecord) (lngv latv : Int),
        geoCoords r.intersection_point = some (lngv, latv) →
        sfBoundsOk latv lngv = false →
        dispatchDictToDiachron fid r = none) := by
  constructor
  · intro r
    unfold transformDispatchRecord truthyOptStr
    cases parsePyDatetime r.received_datetime <;>
      cases hc : r.cad_number <;> simp
    split <;> simp_all
  · intro fid r lngv latv hgeo hbad
    unfold dispatchDictToDiachron
    rw [hgeo]
    simp only [hbad, Bool.not_false, if_pos]

/-- C4 witness: the amended theorem applied to the concrete out-of-bounds
record. -/
theorem claim_C4_witness :
    (transformDispatchRecord outOfBoundsRecord).isSome =
      ((parsePyDatetime outOfBoundsRecord.received_datetime).isSome &&
        truthyOptStr outOfBoundsRecord.cad_number)
    ∧ dispatchDictToDiachron 0 outOfBoundsRecord = none :=
  ⟨claim_C4_amended_secondary_bounds_only.1 outOfBoundsRecord,
    claim_C4_amended_secondary_bounds_only.2 0 outOfBoundsRecord
      (-740000) 400000 (by decide) (by decide)⟩

/-- First fire-call record of a duplicate pair sharing natural key "F1". -/
def fireRecA : RawRecord :=
  { incident_number := some "F1", call_type := some "Structure Fire" }

/-- Second (last-seen) fire-call record of the duplicate pair, with
different fields. -/
def fireRecB : RawRecord :=
  { incident_number := some "F1", call_type := some "Medical Incident" }

/-- First dispatch record of a duplicate pair sharing cad_number "C1". -/
def dupDispatchA : RawRecord :=
  { received_datetime := some "2024-01-18T10:00:00"
    cad_number := some "C1"
    priority_original := some "A" }

/-- Second dispatch record of the duplicate pair. -/
def dupDispatchB : RawRecord :=
  { received_datetime := some "2024-01-18T11:00:00"
    cad_number := some "C1"
    priority_original := some "B" }

/-- C5 counterexample: in the fire-call sync — the only sync that
deduplicates a batch — a batch holding two records with the same natural
key retains the FIRST-seen record, not the last-seen one, and its fields
differ from the last-seen record's; in the dispatch sync no deduplication
happens at all: both records of a duplicate pair are transformed, counted
and upserted. -/
theorem claim_C5_counterexample :
    dedupFireRecords [fireRecA, fireRecB] = [fireRecA]
    ∧ ¬ fireRecA = fireRecB
    ∧ fireRecA.incident_number = fireRecB.incident_number
    ∧ ([dupDispatchA, dupDispatchB].filterMap transformDispatchRecord).length = 2
    ∧ dupDispatchA.cad_number = dupDispatchB.cad_number := by
  decide

theorem dedupFireAux_find?_eq :
    ∀ (records : List RawRecord) (seen : List String) (n : String),
      ¬ n = "" → seen.contains n = false →
      (dedupFireAux records seen).find?
          (fun r => r.incident_number == some n) =
        records.find? (fun r => r.incident_number == some n) := by
  intro records
  induction records with
  | nil => intro seen n _ _; rfl
  | cons r rest ih =>
      intro seen n hn hseen
      unfold dedupFireAux
      cases hin : r.incident_number with
      | none =>
          dsimp only
          rw [List.find?_cons_of_neg _ (by simp [hin])]
          exact ih seen n hn hseen
      | some num =>
          dsimp only
          by_cases hkeep : (!num.isEmpty && !seen.contains num) = true
          · rw [if_pos hkeep]
            by_cases heq : num = n
            · subst heq
              rw [List.find?_cons_of_pos _ (by simp [hin]),
                List.find?_cons_of_pos _ (by simp [hin])]
            · rw [List.find?_cons_of_neg _ (by simp [hin, heq]),
                List.find?_cons_of_neg _ (by simp [hin, heq])]
              refine ih (num :: seen) n hn ?_
              simp only [List.contains_cons, Bool.or_eq_false_iff]
              constructor
              · exact beq_eq_false_iff_ne.mpr (fun h => heq h.symm)
              · exact hseen
          · rw [if_neg hkeep]
            have hne : ¬ num = n := by
              intro h
              subst h
              simp only [Bool.and_eq_true, Bool.not_eq_true',
                not_and_or] at hkeep
              rcases hkeep with h1 | h2
              · exact hn ((String.isEmpty_iff _).mp (by simpa using h1))
              · rw [hseen] at h2
                simp at h2
            rw [List.find?_cons_of_neg _ (by simp [hin, hne])]
            exact ih seen n hn hseen

theorem lookupRow_upsertRow {α : Type} :
    ∀ (store : List (String × α)) (key : String) (v : α) (k : String),
      lookupRow (upsertRow store key v) k =
        if key == k then some v else lookupRow store k := by
  intro store
  induction store with
  | nil =>
      intro key v k
      by_cases hk : (key == k) = true <;>
        simp [upsertRow, lookupRow, List.find?, hk]
  | cons kv rest ih =>
      intro key v k
      show lookupRow
          (if kv.1 == key then (key, v) :: rest
            else kv :: upsertRow rest key v) k = _
      by_cases hkv : (kv.1 == key) = true
      · rw [if_pos hkv]
        have hk1 : kv.1 = key := eq_of_beq hkv
        by_cases hk : (key == k) = true
        · unfold lookupRow
          rw [@List.find?_cons_of_pos (String × α)
            (fun kv => kv.1 == k) (key, v) rest (by simpa using hk)]
          simp [hk]
        · have hk' : (key == k) = false := by simpa using hk
          unfold lookupRow
          rw [@List.find?_cons_of_neg (String × α)
              (fun kv => kv.1 == k) (key, v) rest (by simp [hk']),
            @List.find?_cons_of_neg (String × α)
              (fun kv => kv.1 == k) kv rest (by simp [hk1, hk'])]
          simp [hk']
      · rw [if_neg hkv]
        by_cases hhead : (kv.1 == k) = true
        · have hk : (key == k) = false := by
            refine beq_eq_false_iff_ne.mpr (fun hkey => ?_)
            exact hkv (by rw [hkey]; exact hhead)
          unfold lookupRow
          rw [@List.find?_cons_of_pos (String × α)
              (fun kv => kv.1 == k) kv (upsertRow rest key v) hhead,
            @List.find?_cons_of_pos (String × α)
              (fun kv => kv.1 == k) kv rest hhead]
          simp [hk]
        · unfold lookupRow
          rw [@List.find?_cons_of_neg (String × α)
              (fun kv => kv.1 == k) kv (upsertRow rest key v)
              (by simpa using hhead),
            @List.find?_cons_of_neg (String × α)
              (fun kv => kv.1 == k) kv rest (by simpa using hhead)]
          exact ih key v k

theorem lookupRow_applyUpserts {α : Type} :
    ∀ (rows store : List (String × α)) (k : String),
      lookupRow (applyUpserts store rows) k =
        (match lastValueFor rows k with
          | some v => some v
          | none => lookupRow store k) := by
  intro rows
  induction rows with
  | nil => intro store k; rfl
  | cons rv rest ih =>
      intro store k
      have happ : applyUpserts store (rv :: rest) =
          applyUpserts (upsertRow store rv.1 rv.2) rest := rfl
      have hlast : lastValueFor (rv :: rest) k =
          (match lastValueFor rest k with
            | some w => some w
            | none => if rv.1 == k then some rv.2 else none) := by
        unfold lastValueFor
        rw [List.reverse_cons, List.find?_append]
        cases hr : rest.reverse.find? (fun kv => kv.1 == k) with
        | none =>
            by_cases h1 : rv.1 == k <;>
              simp [List.find?, h1, Option.or]
        | some w => simp [Option.or]
      rw [happ, ih, hlast]
      cases hlv : lastValueFor rest k with
      | none =>
          dsimp only
          rw [lookupRow_upsertRow store rv.1 rv.2 k]
          by_cases h1 : (rv.1 == k) = true <;> simp [h1]
      | some w => rfl

/-- C5 amended: only the fire-call sync deduplicates a fetched batch by
natural key before upserting, and it retains the FIRST-seen record of each
key (the feed arrives ordered most-recent-first); the other sources upsert
every record in order, so for them it is the natural-key upsert itself that
leaves the last-seen record's fields in the store. -/
theorem claim_C5_amended_first_seen_dedup :
    (∀ (records : List RawRecord) (n : String),
        ¬ n = "" →
        (dedupFireRecords records).find?
            (fun r => r.incident_number == some n) =
          records.find? (fun r => r.incident_number == some n))
    ∧ (∀ {α : Type} (rows store : List (String × α)) (k : String),
        lookupRow (applyUpserts store rows) k =
          (match lastValueFor rows k with
            | some v => some v
            | none => lookupRow store k)) := by
  constructor
  · intro records n hn
    exact dedupFireAux_find?_eq records [] n hn rfl
  · intro α rows store k
    exact lookupRow_applyUpserts rows store k

/-- C5 witness: the amended theorem applied to the concrete duplicate
batches. -/
theorem claim_C5_witness :
    (dedupFireRecords [fireRecA, fireRecB]).find?
        (fun r => r.incident_number == some "F1") =
      [fireRecA, fireRecB].find? (fun r => r.incident_number == some "F1")
    ∧ lookupRow (applyUpserts ([] : List (String × Nat))
          [("C1", 1), ("C1", 2)]) "C1" =
        (match lastValueFor [("C1", 1), ("C1", 2)] "C1" with
          | some v => some v
          | none => lookupRow ([] : List (String × Nat)) "C1") :=
  ⟨claim_C5_amended_first_seen_dedup.1 [fireRecA, fireRecB] "F1" (by decide),
    claim_C5_amended_first_seen_dedup.2 [("C1", 1), ("C1", 2)] [] "C1"⟩

theorem findOrCreateLocation_facts (env : WriterEnv) (fresh : Nat)
    (st : DiaState) (latv lngv : Int) (addr slug : Option String) :
    (findOrCreateLocation env fresh st latv lngv addr slug).1.facts =
      st.facts := by
  unfold findOrCreateLocation
  cases st.locations.find? (fun l => env.near l.lat l.lng latv lngv) <;> rfl

theorem updateFactRow_length (st : DiaState) (i : Nat) (f : DiachronFact) :
    (updateFactRow st i f).facts.length = st.facts.length := by
  simp [updateFactRow]

theorem updateFactRow_countP_key (st : DiaState) (i : Nat) (f : DiachronFact)
    (eid : Option String) (k : Nat) :
    (updateFactRow st i f).facts.countP
        (fun row => row.external_id == eid && row.kind_id == k) =
      st.facts.countP
        (fun row => row.external_id == eid && row.kind_id == k) := by
  unfold updateFactRow
  dsimp only
  rw [List.countP_map]
  refine List.countP_congr (fun row _ => ?_)
  by_cases hid : row.id = i <;> simp [Function.comp, hid]

theorem countP_zero_of_find?_none (l : List FactRow) (p : FactRow → Bool)
    (h : l.find? p = none) : l.countP p = 0 := by
  rw [List.countP_eq_zero]
  intro a ha
  exact List.find?_eq_none.mp h a ha

theorem newFactRow_key_matches (f : DiachronFact) (k locId : Nat) :
    ((fun row => row.external_id == f.external_id && row.kind_id == k)
      (newFactRow f k locId)) = true := by
  simp [newFactRow]

theorem writeFact_insert_of_fresh (env : WriterEnv) (fresh k : Nat)
    (st : DiaState) (f : DiachronFact)
    (htr : truthyOptStr f.external_id = true)
    (hk : env.kindId f.kind_code = some k)
    (hnone : findExistingFact st f.external_id k = none) :
    writeFact env fresh st f =
      (insertFactRow
          (findOrCreateLocation env fresh st f.coordinates_lat
            f.coordinates_lng f.address f.neighborhood_slug).1 f k
          (findOrCreateLocation env fresh st f.coordinates_lat
            f.coordinates_lng f.address f.neighborhood_slug).2,
        some f.id) := by
  have hnone1 :
      findExistingFact
        (findOrCreateLocation env fresh st f.coordinates_lat
          f.coordinates_lng f.address f.neighborhood_slug).1
        f.external_id k = none := by
    unfold findExistingFact at hnone ⊢
    rw [findOrCreateLocation_facts]
    exact hnone
  unfold writeFact
  rw [hk]
  dsimp only
  rw [htr, hnone1]
  rfl

theorem writeFact_update_of_existing (env : WriterEnv) (fresh k : Nat)
    (st : DiaState) (f : DiachronFact) (row : FactRow)
    (htr : truthyOptStr f.external_id = true)
    (hk : env.kindId f.kind_code = some k)
    (hrow : findExistingFact st f.external_id k = some row) :
    writeFact env fresh st f =
      (updateFactRow
          (findOrCreateLocation env fresh st f.coordinates_lat
            f.coordinates_lng f.address f.neighborhood_slug).1 row.id f,
        some row.id) := by
  have hrow1 :
      findExistingFact
        (findOrCreateLocation env fresh st f.coordinates_lat
          f.coordinates_lng f.address f.neighborhood_slug).1
        f.external_id k = some row := by
    unfold findExistingFact at hrow ⊢
    rw [findOrCreateLocation_facts]
    exact hrow
  unfold writeFact
  rw [hk]
  dsimp only
  rw [htr, hrow1]
  rfl

theorem writeFact_insert_of_no_external_id (env : WriterEnv)
    (fresh : Nat) (st : DiaState) (f : DiachronFact) (k : Nat)
    (hnoid : f.external_id = none)
    (hk : env.kindId f.kind_code = some k) :
    writeFact env fresh st f =
      (insertFactRow
          (findOrCreateLocation env fresh st f.coordinates_lat
            f.coordinates_lng f.address f.neighborhood_slug).1 f k
          (findOrCreateLocation env fresh st f.coordinates_lat
            f.coordinates_lng f.address f.neighborhood_slug).2,
        some f.id) := by
  have htr : truthyOptStr f.external_id = false := by
    rw [hnoid]; rfl
  unfold writeFact
  rw [hk]
  dsimp only
  rw [htr]
  rfl

theorem writeBatchStep_insert_of_fresh (env : WriterEnv)
    (fresh ins upd k : Nat) (st : DiaState) (f : DiachronFact)
    (htr : truthyOptStr f.external_id = true)
    (hk : env.kindId f.kind_code = some k)
    (hnone : findExistingFact st f.external_id k = none) :
    writeBatchStep env (st, fresh, ins, upd) f =
      (insertFactRow
          (findOrCreateLocation env fresh st f.coordinates_lat
            f.coordinates_lng f.address f.neighborhood_slug).1 f k
          (findOrCreateLocation env fresh st f.coordinates_lat
            f.coordinates_lng f.address f.neighborhood_slug).2,
        fresh + 1, ins + 1, upd) := by
  have hnone1 :
      findExistingFact
        (findOrCreateLocation env fresh st f.coordinates_lat
          f.coordinates_lng f.address f.neighborhood_slug).1
        f.external_id k = none := by
    unfold findExistingFact at hnone ⊢
    rw [findOrCreateLocation_facts]
    exact hnone
  unfold writeBatchStep
  rw [hk]
  dsimp only
  rw [htr, hnone1]
  rfl

theorem writeBatchStep_update_of_existing (env : WriterEnv)
    (fresh ins upd k : Nat) (st : DiaState) (f : DiachronFact)
    (row : FactRow)
    (htr : truthyOptStr f.external_id = true)
    (hk : env.kindId f.kind_code = some k)
    (hrow : findExistingFact st f.external_id k = some row) :
    writeBatchStep env (st, fresh, ins, upd) f =
      (updateFactRow
          (findOrCreateLocation env fresh st f.coordinates_lat
            f.coordinates_lng f.address f.neighborhood_slug).1 row.id f,
        fresh + 1, ins, upd + 1) := by
  have hrow1 :
      findExistingFact
        (findOrCreateLocation env fresh st f.coordinates_lat
          f.coordinates_lng f.address f.neighborhood_slug).1
        f.external_id k = some row := by
    unfold findExistingFact at hrow ⊢
    rw [findOrCreateLocation_facts]
    exact hrow
  unfold writeBatchStep
  rw [hk]
  dsimp only
  rw [htr, hrow1]
  rfl

theorem writeBatchStep_insert_of_no_external_id (env : WriterEnv)
    (fresh ins upd k : Nat) (st : DiaState) (f : DiachronFact)
    (hnoid : f.external_id = none)
    (hk : env.kindId f.kind_code = some k) :
    writeBatchStep env (st, fresh, ins, upd) f =
      (insertFactRow
          (findOrCreateLocation env fresh st f.coordinates_lat
            f.coordinates_lng f.address f.neighborhood_slug).1 f k
          (findOrCreateLocation env fresh st f.coordinates_lat
            f.coordinates_lng f.address f.neighborhood_slug).2,
        fresh + 1, ins + 1, upd) := by
  have htr : truthyOptStr f.external_id = false := by
    rw [hnoid]; rfl
  unfold writeBatchStep
  rw [hk]
  dsimp only
  rw [htr]
  rfl

theorem findExistingFact_after_insert (k : Nat)
    (st : DiaState) (f : DiachronFact)
    (hnone : findExistingFact st f.external_id k = none) :
    ∀ locId : Nat,
      findExistingFact (insertFactRow st f k locId) f.external_id k =
        some (newFactRow f k locId) := by
  intro locId
  unfold findExistingFact at hnone ⊢
  unfold insertFactRow
  dsimp only
  rw [List.find?_append, hnone]
  simp [newFactRow, Option.or]

/-- C8: writing the same fact — carrying a truthy external_id and a known
kind — twice, via `write_fact` or within one `write_facts_batch`, leaves
exactly one matching `(external_id, kind_id)` Fact row: the second write
updates the row in place (same returned id, unchanged row count) and never
creates a second Fact; the batch reports (1 inserted, 1 updated). -/
theorem claim_C8_fact_upsert_idempotent :
    ∀ (env : WriterEnv) (l1 l2 bfresh k : Nat) (st : DiaState)
      (f : DiachronFact),
      truthyOptStr f.external_id = true →
      env.kindId f.kind_code = some k →
      findExistingFact st f.external_id k = none →
      ((writeFact env l2 (writeFact env l1 st f).1 f).1.facts.countP
            (fun row => row.external_id == f.external_id &&
              row.kind_id == k) = 1
        ∧ (writeFact env l2 (writeFact env l1 st f).1 f).1.facts.length =
            (writeFact env l1 st f).1.facts.length
        ∧ (writeFact env l2 (writeFact env l1 st f).1 f).2 =
            (writeFact env l1 st f).2)
      ∧ ((writeFactsBatch env bfresh st [f, f]).1.facts.countP
            (fun row => row.external_id == f.external_id &&
              row.kind_id == k) = 1
        ∧ (writeFactsBatch env bfresh st [f, f]).2 = (1, 1)) := by
  intro env l1 l2 bfresh k st f htr hk hnone
  have hfind_st : st.facts.find?
      (fun row => row.external_id == f.external_id && row.kind_id == k) =
      none := hnone
  constructor
  · -- two write_fact calls
    have hw1 := writeFact_insert_of_fresh env l1 k st f htr hk hnone
    set A := findOrCreateLocation env l1 st f.coordinates_lat
      f.coordinates_lng f.address f.neighborhood_slug with hAdef
    have hfactsA : A.1.facts = st.facts :=
      findOrCreateLocation_facts env l1 st _ _ _ _
    have hnoneA : findExistingFact A.1 f.external_id k = none := by
      unfold findExistingFact
      rw [hfactsA]
      exact hfind_st
    have hfound := findExistingFact_after_insert k A.1 f hnoneA A.2
    have hw2 := writeFact_update_of_existing env l2 k
      (insertFactRow A.1 f k A.2) f (newFactRow f k A.2) htr hk hfound
    set B := findOrCreateLocation env l2 (insertFactRow A.1 f k A.2)
      f.coordinates_lat f.coordinates_lng f.address f.neighborhood_slug
      with hBdef
    have hfactsB : B.1.facts = (insertFactRow A.1 f k A.2).facts :=
      findOrCreateLocation_facts env l2 (insertFactRow A.1 f k A.2) _ _ _ _
    have hcount_ins : (insertFactRow A.1 f k A.2).facts.countP
        (fun row => row.external_id == f.external_id &&
          row.kind_id == k) = 1 := by
      unfold insertFactRow
      dsimp only
      rw [List.countP_append, hfactsA,
        countP_zero_of_find?_none st.facts _ hfind_st]
      simp [List.countP_cons, newFactRow]
    rw [hw1, hw2]
    dsimp only
    refine ⟨?_, ?_, ?_⟩
    · rw [updateFactRow_countP_key, hfactsB]
      exact hcount_ins
    · rw [updateFactRow_length, hfactsB]
    · rfl
  · -- one write_facts_batch of the duplicate pair
    have hstep1 := writeBatchStep_insert_of_fresh env bfresh 0 0 k st f
      htr hk hnone
    set A := findOrCreateLocation env bfresh st f.coordinates_lat
      f.coordinates_lng f.address f.neighborhood_slug with hAdef
    have hfactsA : A.1.facts = st.facts :=
      findOrCreateLocation_facts env bfresh st _ _ _ _
    have hnoneA : findExistingFact A.1 f.external_id k = none := by
      unfold findExistingFact
      rw [hfactsA]
      exact hfind_st
    have hfound := findExistingFact_after_insert k A.1 f hnoneA A.2
    have hstep2 := writeBatchStep_update_of_existing env (bfresh + 1)
      (0 + 1) 0 k (insertFactRow A.1 f k A.2) f (newFactRow f k A.2)
      htr hk hfound
    set B := findOrCreateLocation env (bfresh + 1)
      (insertFactRow A.1 f k A.2) f.coordinates_lat f.coordinates_lng
      f.address f.neighborhood_slug with hBdef
    have hfactsB : B.1.facts = (insertFactRow A.1 f k A.2).facts :=
      findOrCreateLocation_facts env (bfresh + 1)
        (insertFactRow A.1 f k A.2) _ _ _ _
    have hcount_ins : (insertFactRow A.1 f k A.2).facts.countP
        (fun row => row.external_id == f.external_id &&
          row.kind_id == k) = 1 := by
      unfold insertFactRow
      dsimp only
      rw [List.countP_append, hfactsA,
        countP_zero_of_find?_none st.facts _ hfind_st]
      simp [List.countP_cons, newFactRow]
    have hfold : writeFactsBatch env bfresh st [f, f] =
        (updateFactRow B.1 (newFactRow f k A.2).id f, 0 + 1, 0 + 1) := by
      unfold writeFactsBatch
      simp only [List.foldl_cons, List.foldl_nil, hstep1, hstep2]
    rw [hfold]
    constructor
    · rw [updateFactRow_countP_key, hfactsB]
      exact hcount_ins
    · rfl

/-- The concrete writer environment used by the C8 witness: one known fact
kind, a spatial predicate that never matches, no neighborhoods. -/
def envSimple : WriterEnv :=
  ⟨fun c => if c = "dispatch_call" then some 1 else none,
    fun _ _ _ _ => false, fun _ => none⟩

/-- The empty secondary-store state. -/
def emptyDia : DiaState := ⟨[], []⟩

/-- A concrete fact with a truthy external id, for the C8 witness. -/
def factWithId : DiachronFact :=
  { kind_code := "dispatch_call"
    title := "Police Dispatch"
    description := "Priority: A"
    valid_from := ⟨2024, 1, 18, 10, 0, 0, 0⟩
    external_id := some "CAD123"
    id := 5
    coordinates_lat := 377749
    coordinates_lng := -1224194 }

/-- C8 witness: the theorem applied to the concrete environment, empty
store and fact. -/
theorem claim_C8_witness :
    ((writeFact envSimple 101 (writeFact envSimple 100 emptyDia
          factWithId).1 factWithId).1.facts.countP
        (fun row => row.external_id == factWithId.external_id &&
          row.kind_id == 1) = 1
      ∧ (writeFact envSimple 101 (writeFact envSimple 100 emptyDia
            factWithId).1 factWithId).1.facts.length =
          (writeFact envSimple 100 emptyDia factWithId).1.facts.length
      ∧ (writeFact envSimple 101 (writeFact envSimple 100 emptyDia
            factWithId).1 factWithId).2 =
          (writeFact envSimple 100 emptyDia factWithId).2)
    ∧ ((writeFactsBatch envSimple 100 emptyDia
          [factWithId, factWithId]).1.facts.countP
        (fun row => row.external_id == factWithId.external_id &&
          row.kind_id == 1) = 1
      ∧ (writeFactsBatch envSimple 100 emptyDia
          [factWithId, factWithId]).2 = (1, 1)) :=
  claim_C8_fact_upsert_idempotent envSimple 100 101 100 1 emptyDia
    factWithId (by decide) (by decide) (by decide)

/-- A concrete fact without an external id, for the C10 theorems. -/
def factNoId : DiachronFact :=
  { kind_code := "dispatch_call"
    title := "Police Dispatch"
    description := "Priority: B"
    valid_from := ⟨2024, 1, 18, 10, 0, 0, 0⟩
    id := 5
    coordinates_lat := 377749
    coordinates_lng := -1224194 }

/-- C10 counterexample: writing the same external_id-less fact twice
inserts two rows, but both carry the id stored in the fact itself (here 5,
the uuid generated when the DiachronFact was constructed) — the second
insert does NOT use a newly generated id, it duplicates the id already
present in the store. -/
theorem claim_C10_counterexample :
    (writeFact envSimple 101 (writeFact envSimple 100 emptyDia
        factNoId).1 factNoId).1.facts.length = 2
    ∧ ((writeFact envSimple 101 (writeFact envSimple 100 emptyDia
          factNoId).1 factNoId).1.facts.map (fun row => row.id)) =
        [5, 5] := by
  decide

/-- C10 amended: for every fact whose external_id is None, `write_fact` and
`write_facts_batch` skip the duplicate check entirely and insert a fresh
Fact row on every call, using the id carried by the fact (generated when
the DiachronFact was constructed, not at write time); repeated writes of
the same external_id-less fact therefore create multiple Fact rows — all
sharing that carried id — rather than updating one. -/
theorem claim_C10_amended_no_dedup_without_external_id :
    ∀ (env : WriterEnv) (fresh1 fresh2 bfresh k : Nat) (st : DiaState)
      (f : DiachronFact),
      f.external_id = none →
      env.kindId f.kind_code = some k →
      ((writeFact env fresh1 st f).1.facts.length = st.facts.length + 1
        ∧ (writeFact env fresh1 st f).2 = some f.id
        ∧ (writeFact env fresh2
              (writeFact env fresh1 st f).1 f).1.facts.length =
            st.facts.length + 2
        ∧ ((writeFact env fresh2
              (writeFact env fresh1 st f).1 f).1.facts.drop
              st.facts.length).map (fun row => row.id) = [f.id, f.id])
      ∧ ((writeFactsBatch env bfresh st [f, f]).1.facts.length =
            st.facts.length + 2
        ∧ (writeFactsBatch env bfresh st [f, f]).2 = (2, 0)) := by
  intro env fresh1 fresh2 bfresh k st f hnoid hk
  constructor
  · have hw1 := writeFact_insert_of_no_external_id env fresh1 st f k
      hnoid hk
    set A := findOrCreateLocation env fresh1 st f.coordinates_lat
      f.coordinates_lng f.address f.neighborhood_slug with hAdef
    have hfactsA : A.1.facts = st.facts :=
      findOrCreateLocation_facts env fresh1 st _ _ _ _
    have hw2 := writeFact_insert_of_no_external_id env fresh2
      (insertFactRow A.1 f k A.2) f k hnoid hk
    set B := findOrCreateLocation env fresh2 (insertFactRow A.1 f k A.2)
      f.coordinates_lat f.coordinates_lng f.address f.neighborhood_slug
      with hBdef
    have hfactsB : B.1.facts = (insertFactRow A.1 f k A.2).facts :=
      findOrCreateLocation_facts env fresh2 (insertFactRow A.1 f k A.2)
        _ _ _ _
    rw [hw1, hw2]
    dsimp only
    refine ⟨?_, rfl, ?_, ?_⟩
    · simp [insertFactRow, hfactsA]
    · simp [insertFactRow, hfactsB, hfactsA]
    · unfold insertFactRow
      dsimp only
      rw [hfactsB]
      unfold insertFactRow
      dsimp only
      rw [hfactsA, List.append_assoc, List.drop_left]
      rfl
  · have hstep1 := writeBatchStep_insert_of_no_external_id env bfresh 0 0
      k st f hnoid hk
    set A := findOrCreateLocation env bfresh st f.coordinates_lat
      f.coordinates_lng f.address f.neighborhood_slug with hAdef
    have hfactsA : A.1.facts = st.facts :=
      findOrCreateLocation_facts env bfresh st _ _ _ _
    have hstep2 := writeBatchStep_insert_of_no_external_id env (bfresh + 1)
      (0 + 1) 0 k (insertFactRow A.1 f k A.2) f hnoid hk
    set B := findOrCreateLocation env (bfresh + 1)
      (insertFactRow A.1 f k A.2) f.coordinates_lat f.coordinates_lng
      f.address f.neighborhood_slug with hBdef
    have hfactsB : B.1.facts = (insertFactRow A.1 f k A.2).facts :=
      findOrCreateLocation_facts env (bfresh + 1)
        (insertFactRow A.1 f k A.2) _ _ _ _
    have hfold : writeFactsBatch env bfresh st [f, f] =
        (insertFactRow B.1 f k B.2, 0 + 1 + 1, 0) := by
      unfold writeFactsBatch
      simp only [List.foldl_cons, List.foldl_nil, hstep1, hstep2]
    rw [hfold]
    constructor
    · simp [insertFactRow, hfactsB, hfactsA]
    · rfl

/-- C10 witness: the amended theorem applied to the concrete environment,
empty store and external_id-less fact. -/
theorem claim_C10_witness :
    ((writeFact envSimple 100 emptyDia factNoId).1.facts.length =
        emptyDia.facts.length + 1
      ∧ (writeFact envSimple 100 emptyDia factNoId).2 = some factNoId.id
      ∧ (writeFact envSimple 101
            (writeFact envSimple 100 emptyDia factNoId).1
            factNoId).1.facts.length = emptyDia.facts.length + 2
      ∧ ((writeFact envSimple 101
            (writeFact envSimple 100 emptyDia factNoId).1
            factNoId).1.facts.drop emptyDia.facts.length).map
          (fun row => row.id) = [factNoId.id, factNoId.id])
    ∧ ((writeFactsBatch envSimple 100 emptyDia
          [factNoId, factNoId]).1.facts.length =
        emptyDia.facts.length + 2
      ∧ (writeFactsBatch envSimple 100 emptyDia
          [factNoId, factNoId]).2 = (2, 0)) :=
  claim_C10_amended_no_dedup_without_external_id envSimple 100 101 100 1
    emptyDia factNoId rfl (by decide)

end SFCrime
